import Mathlib

/-!
Verification of `src/mcp_fred/server.py` (an MCP server exposing FRED
macroeconomic data as two tools, `get_series` and `get_series_info`).

The Python code is shallowly embedded as follows.

* Python values that can appear in the argument dict are modelled by `PyVal`
  (integers, strings, `None`); the argument dict `arguments` is modelled by
  `Args`, each field `none` when the key is absent (so `arguments.get(k)`
  is `Args.field.getD PyVal.vNone` and `arguments.get("limit", 100)` is
  `Args.limit.getD (PyVal.vInt 100)`).
* A Python `float` is modelled by `PyFloat`: a finite value (abstracted to a
  rational), NaN, or a signed infinity.  The builtin `float(x)` applied to
  the raw `value` field is modelled by `pyFloatOf` over `RawValue`, which
  classifies the raw field by what `float` does with it: a numeric string
  (gives a finite float), the special literals accepted by `float` such as
  "nan" and "inf"/"-inf", a non-numeric string (raises `ValueError`), or
  `None` (raises `TypeError`).
* Exceptions that the embedded code can raise are `PyError`; fallible code
  returns `Except PyError _`.  Code wrapped in a `try/except` that converts
  every exception to a value is total.
* The network is an oracle input: `Upstream` (for the observations endpoint)
  and `InfoUpstream` (for the series-metadata endpoint) describe the outcome
  of the HTTP exchange — a transport/HTTP/JSON-decode failure carrying the
  exception message, or a decoded JSON body in which the expected top-level
  key (`observations` resp. `seriess`) is present or absent.
* Python string formatting of a float (`f"{obs['value']}"`) is abstracted by
  `formatFloat` (a fixed decimal rendering of the rational); no claim
  depends on the numeric rendering.  All other text is reproduced verbatim.
* Python `len` on a string counts code points, as does `String.data.length`;
  `s[:200]` is `String.mk (s.data.take 200)`.  Python `min`/`max` over a
  list of strings compare lexicographically by code point, as Lean's
  `String` order does.
-/

namespace McpFred

/-- A Python value as it can appear in the tool-call argument dict. -/
inductive PyVal where
  | vInt (n : Int)
  | vStr (s : String)
  | vNone
deriving DecidableEq, Repr

/-- Python `str(v)`, as used by the f-strings in `call_tool`. -/
def PyVal.pyStr : PyVal → String
  | .vInt n => toString n
  | .vStr s => s
  | .vNone => "None"

/-- Classification of the raw `value` field of an upstream observation
record by what the builtin `float` does with it (`server.py` line 73). -/
inductive RawValue where
  | numeric (q : ℚ)      -- a string or number parsing to a finite float
  | nanLit               -- a string such as "nan" accepted by float as NaN
  | infLit (neg : Bool)  -- a string such as "inf" or "-inf"
  | malformed (s : String)  -- a non-numeric string: float raises ValueError
  | noneVal              -- JSON null: float(None) raises TypeError
deriving DecidableEq

/-- A Python float: finite (abstracted to a rational), NaN, or ±Infinity. -/
inductive PyFloat where
  | finite (q : ℚ)
  | nan
  | inf (neg : Bool)
deriving DecidableEq

/-- Whether a Python float is a finite number. -/
def PyFloat.isFinite : PyFloat → Bool
  | .finite _ => true
  | _ => false

/-- The exceptions the embedded code can raise; each carries `str(e)`
except `keyError`, which carries the missing key (its `str` adds quotes). -/
inductive PyError where
  | valueError (msg : String)
  | typeError (msg : String)
  | keyError (k : String)
deriving DecidableEq

/-- Python `str(e)` for an exception `e`, as interpolated by f-strings
(`str` of a `KeyError` is the `repr` of the missing key). -/
def errMsg : PyError → String
  | .valueError m => m
  | .typeError m => m
  | .keyError k => "'" ++ k ++ "'"

/-- The builtin `float` applied to a raw observation value
(`server.py` line 73): `float(obs['value'])` once the key lookup
has succeeded. -/
def pyFloatOf : RawValue → Except PyError PyFloat
  | .numeric q => .ok (.finite q)
  | .nanLit => .ok .nan
  | .infLit neg => .ok (.inf neg)
  | .malformed s =>
      .error (.valueError ("could not convert string to float: '" ++ s ++ "'"))
  | .noneVal =>
      .error (.typeError "float() argument must be a string or a real number, not 'NoneType'")

/-- A raw observation record from the upstream JSON: a dict whose `date`
and `value` keys may each be absent (`none`). -/
structure RawObs where
  date : Option String
  value : Option RawValue
deriving DecidableEq

/-- A normalized observation: the dict `{'date': ..., 'value': ...}` built
at `server.py` lines 74–77. -/
structure Obs where
  date : String
  value : PyFloat
deriving DecidableEq

/-- The normalization loop of `FredClient.get_series` (`server.py`
lines 70–79): for each raw record, `value = float(obs['value'])` then
append `{'date': obs['date'], 'value': value}`, with an inner
`except (ValueError, TypeError): continue`.  A `KeyError` from a missing
`value` or `date` key is not caught by the inner handler and aborts the
loop (it propagates to the outer handler of `get_series`). -/
def normalizeObs : List RawObs → Except PyError (List Obs)
  | [] => .ok []
  | obs :: rest =>
    match obs.value with
    | none => .error (.keyError "value")
    | some rv =>
      match pyFloatOf rv with
      | .error (.valueError _) => normalizeObs rest  -- caught: continue
      | .error (.typeError _) => normalizeObs rest   -- caught: continue
      | .error (.keyError k) => .error (.keyError k) -- not raised by float
      | .ok v =>
        match obs.date with
        | none => .error (.keyError "date")
        | some d =>
          match normalizeObs rest with
          | .ok tail => .ok (⟨d, v⟩ :: tail)
          | .error e => .error e

/-- An element of the list returned by `FredClient.get_series`: either a
data dict with exactly the keys `date` and `value`, or the error dict
`{"error": msg}` built by the outer `except`. -/
inductive SeriesRecord where
  | obsRec (date : String) (value : PyFloat)
  | errRec (msg : String)
deriving DecidableEq

/-- `obs['date']` on a returned record.  On an `errRec` this lookup would
raise `KeyError` in Python; the dispatcher only reaches it on data
records (see the C10 invariant), so the total default is irrelevant. -/
def SeriesRecord.dateOf : SeriesRecord → String
  | .obsRec d _ => d
  | .errRec _ => ""

/-- `obs['value']` on a returned record; same remark as `dateOf`. -/
def SeriesRecord.valueOf : SeriesRecord → PyFloat
  | .obsRec _ v => v
  | .errRec _ => .nan

/-- Whether `"error" in observations[0]` holds for a returned record
(`server.py` line 178). -/
def hasErrKey : SeriesRecord → Bool
  | .obsRec _ _ => false
  | .errRec _ => true

/-- The outcome of the HTTP exchange with the observations endpoint, an
oracle input: either the request / `raise_for_status` / `response.json()`
raised (carrying `str(e)`), or a decoded JSON body whose `observations`
key is absent (`none`) or holds a list of raw records. -/
inductive Upstream where
  | httpFailure (msg : String)
  | jsonBody (observations : Option (List RawObs))

/-- `FredClient.get_series` (`server.py` lines 45–84): on HTTP failure the
outer `except` returns `[{"error": str(e)}]`; a body without the
`observations` key returns `[]`; otherwise the records are normalized,
and an exception escaping the loop (a `KeyError`) is also converted by
the outer `except` into the singleton error record. -/
def fredGetSeries : Upstream → List SeriesRecord
  | .httpFailure msg => [.errRec msg]
  | .jsonBody none => []
  | .jsonBody (some raws) =>
    match normalizeObs raws with
    | .ok obs => obs.map (fun o => .obsRec o.date o.value)
    | .error e => [.errRec (errMsg e)]

/-- Python slice `l[i:]` for an `Int` index `i`: a nonnegative start drops
that many elements (clamped), a negative start keeps the last `-i`
elements (clamped). -/
def pySliceFrom (i : Int) (l : List α) : List α :=
  if 0 ≤ i then l.drop i.toNat else l.drop (l.length - i.natAbs)

/-- The windowing expression of the dispatcher (`server.py` line 185):
`observations[-limit:] if len(observations) > limit else observations`. -/
def windowStep (limit : Int) (observations : List α) : List α :=
  if (observations.length : Int) > limit then pySliceFrom (-limit) observations
  else observations

/-- The abstraction of Python's decimal rendering of a float in an
f-string; no claim depends on the exact digits. -/
def formatFloat : PyFloat → String
  | .finite q => toString q
  | .nan => "nan"
  | .inf false => "inf"
  | .inf true => "-inf"

/-- Python `min(dates)` for a nonempty list of strings (first element,
then ties keep the accumulator). -/
def listMin : List String → String
  | [] => ""
  | d :: ds => ds.foldl (fun acc x => if x < acc then x else acc) d

/-- Python `max(dates)` for a nonempty list of strings. -/
def listMax : List String → String
  | [] => ""
  | d :: ds => ds.foldl (fun acc x => if acc < x then x else acc) d

/-- One MCP `TextContent` item. -/
structure TextContent where
  type : String
  text : String
deriving DecidableEq

/-- The fixed configuration-error text (`server.py` line 154). -/
def configErrorText : String := "ERROR: FRED_API_KEY environment variable not set"

/-- The no-data text of the `get_series` branch (`server.py`
lines 174–175). -/
def noDataText (sid : String) : String :=
  "No data retrieved for series '" ++ sid ++
    "'. Verify series ID validity or connectivity."

/-- The success formatting of the `get_series` branch (`server.py`
lines 188–196), applied to the (already windowed) observation list. -/
def renderSeriesOutput (sid : String) (observations : List SeriesRecord) : String :=
  let header := "Series: " ++ sid ++ "\n" ++
    "Observations: " ++ toString observations.length ++ "\n"
  if observations.isEmpty then header
  else
    let dates := observations.map SeriesRecord.dateOf
    header ++ "Period: " ++ listMin dates ++ " to " ++ listMax dates ++ "\n\n" ++
      "date       | value\n" ++ "-----------+-------\n" ++
      String.join (observations.map
        (fun o => o.dateOf ++ " | " ++ formatFloat o.valueOf ++ "\n"))

/-- A series-metadata record from the upstream JSON (`data['seriess'][0]`):
a dict whose fields may each be absent. -/
structure SeriesMeta where
  title : Option String
  frequency : Option String
  units : Option String
  seasonal_adjustment : Option String
  last_updated : Option String
  notes : Option String
deriving DecidableEq

/-- The notes truncation of `get_series_info` (`server.py` line 231):
`notes[:200]` plus `'...'` exactly when `len(notes) > 200`. -/
def notesTrunc (s : String) : String :=
  String.mk (s.data.take 200) ++ (if 200 < s.data.length then "..." else "")

/-- The metadata rendering of `get_series_info` (`server.py`
lines 224–231); absent fields render as `N/A`. -/
def renderInfo (sid : String) (m : SeriesMeta) : String :=
  "Series Information: " ++ sid ++ "\n" ++
  "Title: " ++ m.title.getD "N/A" ++ "\n" ++
  "Frequency: " ++ m.frequency.getD "N/A" ++ "\n" ++
  "Units: " ++ m.units.getD "N/A" ++ "\n" ++
  "Seasonal Adjustment: " ++ m.seasonal_adjustment.getD "N/A" ++ "\n" ++
  "Last Updated: " ++ m.last_updated.getD "N/A" ++ "\n" ++
  "Notes: " ++ notesTrunc (m.notes.getD "N/A")

/-- The outcome of the HTTP exchange with the series-metadata endpoint, an
oracle input (the whole block is inside `try`, so a failure carries
`str(e)`); on success the `seriess` key is absent or holds a list. -/
inductive InfoUpstream where
  | httpFailure (msg : String)
  | jsonBody (seriess : Option (List SeriesMeta))

/-- The tool-call argument dict; a field is `none` when the key is absent. -/
structure Args where
  series_id : Option PyVal := none
  start_date : Option PyVal := none
  end_date : Option PyVal := none
  limit : Option PyVal := none

/-- The dispatcher `call_tool` (`server.py` lines 146–241).  `apiKey` is
`os.environ.get("FRED_API_KEY", "")` as memoized by `get_client`; the
credential check `if not client or not _api_key` fires exactly when that
string is empty.  The two oracle inputs stand for the upstream exchanges
performed by the two branches.  The windowing comparison
`len(observations) > limit` raises `TypeError` (uncaught, hence
`Except.error`) when the supplied `limit` is not an integer; the
`start_date` / `end_date` arguments only feed the upstream query and so
are absorbed by the oracle. -/
def call_tool (apiKey : String) (name : String) (args : Args)
    (seriesUp : Upstream) (infoUp : InfoUpstream) :
    Except PyError (List TextContent) :=
  if apiKey = "" then .ok [⟨"text", configErrorText⟩]
  else if name = "get_series" then
    let series_id := args.series_id.getD .vNone
    match fredGetSeries seriesUp with
    | [] => .ok [⟨"text", noDataText series_id.pyStr⟩]
    | .errRec msg :: _ => .ok [⟨"text", "Error: " ++ msg⟩]
    | obs₀ :: rest =>
      match args.limit.getD (.vInt 100) with
      | .vInt limit =>
          .ok [⟨"text", renderSeriesOutput series_id.pyStr
                  (windowStep limit (obs₀ :: rest))⟩]
      | .vStr _ =>
          .error (.typeError "'>' not supported between instances of 'int' and 'str'")
      | .vNone =>
          .error (.typeError "'>' not supported between instances of 'int' and 'NoneType'")
  else if name = "get_series_info" then
    let series_id := args.series_id.getD .vNone
    match infoUp with
    | .httpFailure msg => .ok [⟨"text", "Error retrieving series info: " ++ msg⟩]
    | .jsonBody none => .ok [⟨"text", "Series '" ++ series_id.pyStr ++ "' not found"⟩]
    | .jsonBody (some []) => .ok [⟨"text", "Series '" ++ series_id.pyStr ++ "' not found"⟩]
    | .jsonBody (some (m :: _)) => .ok [⟨"text", renderInfo series_id.pyStr m⟩]
  else .ok [⟨"text", "Unknown tool: " ++ name⟩]

end McpFred

namespace McpFred

set_option maxRecDepth 4000

/-- Appending the empty string is the identity. -/
theorem str_append_empty (s : String) : s ++ "" = s := by
  apply String.ext
  rw [String.data_append]
  simp

/-- C6: when no credential is configured (`FRED_API_KEY` unset or empty,
so the memoized key is the empty string), every tool invocation — any
tool name, any argument bundle, any upstream behaviour — returns the one
fixed configuration-error text; the check precedes argument validation
and routing, as the result does not depend on `name`, `args`, or either
upstream oracle. -/
theorem missing_credential_fixed_text (name : String) (args : Args)
    (sUp : Upstream) (iUp : InfoUpstream) :
    call_tool "" name args sUp iUp = .ok [⟨"text", configErrorText⟩] := by
  simp [call_tool]

/-- C3 counterexample: with window limit `-1` (which is ≤ 0) and a
one-element normalized sequence, the windowing expression
`observations[-limit:] if len(observations) > limit else observations`
returns the empty list, not the full sequence: `len([r]) = 1 > -1` holds
and the slice `[r][1:]` is empty. -/
theorem window_neg_limit_empties :
    windowStep (-1) [SeriesRecord.obsRec "2024-01-01" (.finite 5)] = [] ∧
    [SeriesRecord.obsRec "2024-01-01" (.finite 5)] ≠ ([] : List SeriesRecord) := by
  exact ⟨rfl, by simp⟩

/-- C3 amended: a window limit of exactly 0 returns the full sequence
unchanged, but a negative window limit `W` removes the first `|W|`
elements of the sequence (Python `obs[-W:]` with `-W > 0`), which
truncates the sequence and can leave it empty. -/
theorem window_nonpositive_limit (obs : List SeriesRecord) :
    windowStep 0 obs = obs ∧
    ∀ W : Int, W < 0 → windowStep W obs = obs.drop W.natAbs := by
  constructor
  · unfold windowStep pySliceFrom
    split
    · rw [if_pos (by omega)]
      simp
    · rfl
  · intro W hW
    unfold windowStep pySliceFrom
    rw [if_pos (by omega), if_pos (by omega)]
    congr 1
    omega

/-- C3 amended witness: at limit `-1` on a one-element list the window
drops the first element. -/
theorem window_nonpositive_limit_witness :
    windowStep (-1) [SeriesRecord.obsRec "2024-03-01" (.finite 7)] =
      List.drop (Int.natAbs (-1)) [SeriesRecord.obsRec "2024-03-01" (.finite 7)] :=
  (window_nonpositive_limit _).2 (-1) (by decide)

/-- C7: for a positive window limit `W`, the windowing step returns the
full sequence when its length `L` is at most `W`, and exactly the last
`W` entries in their original order (the suffix obtained by dropping the
first `L - W` elements, of length `W`) when `L > W`. -/
theorem window_positive_limit (obs : List SeriesRecord) (W : Int) (hW : 0 < W) :
    ((obs.length : Int) ≤ W → windowStep W obs = obs) ∧
    ((obs.length : Int) > W →
      windowStep W obs = obs.drop (obs.length - W.toNat) ∧
      (windowStep W obs).length = W.toNat) := by
  constructor
  · intro hLe
    unfold windowStep
    rw [if_neg (by omega)]
  · intro hGt
    have hcond : windowStep W obs = obs.drop (obs.length - W.toNat) := by
      unfold windowStep pySliceFrom
      rw [if_pos (by omega), if_neg (by omega)]
      congr 1
      omega
    refine ⟨hcond, ?_⟩
    rw [hcond, List.length_drop]
    omega

/-- C7 witness: a three-element sequence with limit 2 keeps exactly the
last two entries. -/
theorem window_positive_limit_witness :
    windowStep 2 [SeriesRecord.obsRec "a" .nan, .obsRec "b" .nan, .obsRec "c" .nan] =
      List.drop
        ([SeriesRecord.obsRec "a" .nan, .obsRec "b" .nan, .obsRec "c" .nan].length -
          (2 : Int).toNat)
        [SeriesRecord.obsRec "a" .nan, .obsRec "b" .nan, .obsRec "c" .nan] ∧
    (windowStep 2
      [SeriesRecord.obsRec "a" .nan, .obsRec "b" .nan, .obsRec "c" .nan]).length =
      (2 : Int).toNat :=
  (window_positive_limit _ 2 (by decide)).2 (by decide)

/-- C9: in the `get_series_info` rendering, the notes string is rendered
by `notesTrunc` (`notes[:200]` plus a conditional ellipsis): a notes
string of exactly 200 characters is rendered in full with no ellipsis
marker, and one of 201 characters is rendered as its first 200
characters followed by the ellipsis marker. -/
theorem notes_truncation (notes : String) :
    (notes.data.length = 200 → notesTrunc notes = notes) ∧
    (notes.data.length = 201 →
      notesTrunc notes = String.mk (notes.data.take 200) ++ "...") := by
  constructor
  · intro h
    unfold notesTrunc
    rw [List.take_of_length_le (by omega), if_neg (by omega)]
    exact str_append_empty _
  · intro h
    unfold notesTrunc
    rw [if_pos (by omega)]

/-- C9 witness: concrete strings of lengths 200 and 201. -/
theorem notes_truncation_witness :
    notesTrunc (String.mk (List.replicate 200 'a')) =
      String.mk (List.replicate 200 'a') ∧
    notesTrunc (String.mk (List.replicate 201 'a')) =
      String.mk ((String.mk (List.replicate 201 'a')).data.take 200) ++ "..." :=
  ⟨(notes_truncation _).1 (List.length_replicate 200 'a'),
   (notes_truncation _).2 (List.length_replicate 201 'a')⟩

end McpFred

namespace McpFred

/-- C1 counterexample: a raw record whose `value` key is missing raises
`KeyError('value')`, which the inner `except (ValueError, TypeError)` does
not catch; the outer handler converts it to the singleton error record,
aborting the batch, so the following well-formed record is not returned. -/
theorem missing_value_aborts_batch :
    fredGetSeries (.jsonBody (some
        [⟨some "2024-01-01", none⟩, ⟨some "2024-02-01", some (.numeric 5)⟩])) =
      [SeriesRecord.errRec "'value'"] ∧
    fredGetSeries (.jsonBody (some
        [⟨some "2024-01-01", none⟩, ⟨some "2024-02-01", some (.numeric 5)⟩])) ≠
      [SeriesRecord.obsRec "2024-02-01" (.finite 5)] :=
  ⟨rfl, by decide⟩

/-- C1 amended: a record whose `value` field is present but fails to
parse as a number (a non-numeric string raising `ValueError`, or `None`
raising `TypeError`) is dropped silently: normalization continues as if
the record were not there, so the remaining records are still processed.
A record whose `value` field is missing instead aborts the batch with an
uncaught `KeyError` (see the counterexample). -/
theorem parse_failure_dropped (r : RawObs) (rest : List RawObs)
    (h : (∃ s, r.value = some (.malformed s)) ∨ r.value = some .noneVal) :
    normalizeObs (r :: rest) = normalizeObs rest := by
  rcases h with ⟨s, hs⟩ | hn
  · simp [normalizeObs, hs, pyFloatOf]
  · simp [normalizeObs, hn, pyFloatOf]

/-- C1 amended witness: the non-numeric value "bad" is dropped and the
rest of the batch is still normalized. -/
theorem parse_failure_dropped_witness :
    normalizeObs [⟨some "2024-02-01", some (.malformed "bad")⟩,
        ⟨some "2024-03-01", some (.numeric 11)⟩] =
      normalizeObs [⟨some "2024-03-01", some (.numeric 11)⟩] :=
  parse_failure_dropped _ _ (.inl ⟨"bad", rfl⟩)

/-- C2 counterexample: the raw value classified as a NaN literal (such as
the string "nan", which Python's `float` accepts) survives normalization
with a non-finite value. -/
theorem nan_survives_normalization :
    normalizeObs [⟨some "2024-01-01", some .nanLit⟩] =
      .ok [⟨"2024-01-01", .nan⟩] ∧
    PyFloat.isFinite .nan = false :=
  ⟨rfl, rfl⟩

/-- C2 amended: when normalization succeeds, the output has length at
most the input length (each raw record yields at most one observation);
the finiteness half of the claim fails, since `float` accepts the
special strings "nan" and "inf" (see the counterexample). -/
theorem normalize_length_le (l : List RawObs) (obs : List Obs)
    (h : normalizeObs l = .ok obs) : obs.length ≤ l.length := by
  induction l generalizing obs with
  | nil =>
    simp only [normalizeObs] at h
    cases h
    simp
  | cons r rest ih =>
    rw [normalizeObs] at h
    split at h
    · exact absurd h (by simp)
    · split at h
      · exact Nat.le_succ_of_le (ih _ h)
      · exact Nat.le_succ_of_le (ih _ h)
      · exact absurd h (by simp)
      · split at h
        · exact absurd h (by simp)
        · split at h
          · cases h
            simpa using Nat.succ_le_succ (ih _ (by assumption))
          · exact absurd h (by simp)

/-- C2 amended witness: a singleton well-formed batch. -/
theorem normalize_length_le_witness :
    ([⟨"2024-01-01", PyFloat.finite 5⟩] : List Obs).length ≤
      ([⟨some "2024-01-01", some (.numeric 5)⟩] : List RawObs).length :=
  normalize_length_le _ _ rfl

end McpFred

namespace McpFred

/-- Shape invariant of `FredClient.get_series`: its result is the
singleton error record or a list of pure data records. -/
theorem fredGetSeries_shape (up : Upstream) :
    (∃ msg, fredGetSeries up = [SeriesRecord.errRec msg]) ∨
    (∀ r ∈ fredGetSeries up, hasErrKey r = false) := by
  cases up with
  | httpFailure msg => exact .inl ⟨msg, rfl⟩
  | jsonBody o =>
    cases o with
    | none => exact .inr (by simp [fredGetSeries])
    | some raws =>
      rcases h : normalizeObs raws with e | obs
      · left
        refine ⟨errMsg e, ?_⟩
        simp only [fredGetSeries, h]
      · right
        intro r hr
        simp only [fredGetSeries, h, List.mem_map] at hr
        obtain ⟨o, _, rfl⟩ := hr
        rfl

/-- C10: every result of `FredClient.get_series` is either the singleton
list holding one record with the single key `error`, or a list in which
every element is a data record with exactly the keys `date` and `value`
(no `error` key); consequently the dispatcher's test — first element
present and carrying the `error` key — holds exactly on the failure
variant. -/
theorem get_series_result_discrimination (up : Upstream) :
    ((∃ msg, fredGetSeries up = [SeriesRecord.errRec msg]) ∨
      (∀ r ∈ fredGetSeries up, hasErrKey r = false)) ∧
    (((fredGetSeries up).head?.map hasErrKey = some true) ↔
      (∃ msg, fredGetSeries up = [SeriesRecord.errRec msg])) := by
  refine ⟨fredGetSeries_shape up, ?_, ?_⟩
  · intro h
    rcases fredGetSeries_shape up with he | hall
    · exact he
    · exfalso
      cases hl : fredGetSeries up with
      | nil => rw [hl] at h; simp at h
      | cons a t =>
        rw [hl] at h
        have ha : hasErrKey a = false := hall a (by rw [hl]; simp)
        rw [Option.map_eq_some'] at h
        obtain ⟨b, hb, hbe⟩ := h
        simp only [List.head?_cons, Option.some.injEq] at hb
        rw [← hb, ha] at hbe
        cases hbe
  · rintro ⟨msg, hm⟩
    rw [hm]
    rfl

/-- C10 witness: on an HTTP failure the discriminator fires. -/
theorem get_series_result_discrimination_witness :
    (fredGetSeries (.httpFailure "boom")).head?.map hasErrKey = some true :=
  (get_series_result_discrimination (.httpFailure "boom")).2.mpr ⟨"boom", rfl⟩

end McpFred

namespace McpFred

/-- C4 counterexample: with the credential configured and an argument
bundle in which `series_id` is absent, the dispatcher does not return any
missing-required-field response — for both tools it proceeds to the
upstream call and the data path, with `arguments.get("series_id")`
yielding `None` and the f-strings rendering it as the text `None`. -/
theorem no_required_field_check :
    call_tool "key" "get_series" {} (.jsonBody none) (.jsonBody none) =
      .ok [⟨"text", noDataText "None"⟩] ∧
    call_tool "key" "get_series_info" {} (.jsonBody none) (.jsonBody none) =
      .ok [⟨"text", "Series 'None' not found"⟩] :=
  ⟨rfl, rfl⟩

/-- C4 amended: the dispatcher performs no runtime presence check for
`series_id`: an argument bundle without the key is handled identically
to one in which the key is present with the value `None` (the default of
`dict.get`), and the invocation proceeds to routing and the upstream
call instead of being rejected. -/
theorem missing_series_id_defaults_none (apiKey name : String) (args : Args)
    (sUp : Upstream) (iUp : InfoUpstream) (h : args.series_id = none) :
    call_tool apiKey name args sUp iUp =
      call_tool apiKey name { args with series_id := some .vNone } sUp iUp := by
  simp [call_tool, h]

/-- C4 amended witness: a concrete invocation with `series_id` absent. -/
theorem missing_series_id_defaults_none_witness :
    call_tool "key" "get_series" {} (.httpFailure "boom") (.jsonBody none) =
      call_tool "key" "get_series" { series_id := some .vNone }
        (.httpFailure "boom") (.jsonBody none) :=
  missing_series_id_defaults_none "key" "get_series" {} (.httpFailure "boom")
    (.jsonBody none) rfl

/-- C5 counterexample: a wrongly typed `limit` argument (here the string
"x") on a `get_series` call that reaches the windowing line makes the
comparison `len(observations) > limit` raise `TypeError`, which no
handler in `call_tool` catches: the invocation raises across the
protocol boundary instead of returning a text response. -/
theorem nonint_limit_raises :
    call_tool "key" "get_series"
        { series_id := some (.vStr "GDP"), limit := some (.vStr "x") }
        (.jsonBody (some [⟨some "2024-01-01", some (.numeric 5)⟩]))
        (.jsonBody none) =
      .error (.typeError "'>' not supported between instances of 'int' and 'str'") :=
  rfl

/-- C5 amended: for every tool invocation — any tool name, unknown names
included, and any argument bundle — in which the `limit` argument, when
present, is an integer (so `arguments.get("limit", 100)` is an `int`),
`call_tool` returns a well-formed single text response and raises no
exception; a non-integer `limit` can instead raise `TypeError` at the
windowing comparison (see the counterexample). -/
theorem call_tool_single_text (apiKey name : String) (args : Args)
    (sUp : Upstream) (iUp : InfoUpstream)
    (h : ∃ n, args.limit.getD (.vInt 100) = PyVal.vInt n) :
    ∃ t, call_tool apiKey name args sUp iUp = .ok [t] := by
  obtain ⟨n, hn⟩ := h
  unfold call_tool
  split
  · exact ⟨_, rfl⟩
  · split
    · rcases hs : fredGetSeries sUp with _ | ⟨r, rest⟩
      · exact ⟨_, rfl⟩
      · rcases r with ⟨d, v⟩ | m
        · rw [hn]
          exact ⟨_, rfl⟩
        · exact ⟨_, rfl⟩
    · split
      · rcases iUp with m | o
        · exact ⟨_, rfl⟩
        · rcases o with _ | ⟨_ | ⟨m, rest⟩⟩
          · exact ⟨_, rfl⟩
          · exact ⟨_, rfl⟩
          · exact ⟨_, rfl⟩
      · exact ⟨_, rfl⟩

/-- C5 amended witness: a concrete well-typed invocation (with `limit`
absent, defaulting to 100) returning one text item. -/
theorem call_tool_single_text_witness :
    ∃ t, call_tool "key" "get_series" { series_id := some (.vStr "GDP") }
        (.jsonBody (some [⟨some "2024-01-01", some (.numeric 5)⟩]))
        (.jsonBody none) = .ok [t] :=
  call_tool_single_text "key" "get_series" { series_id := some (.vStr "GDP") }
    (.jsonBody (some [⟨some "2024-01-01", some (.numeric 5)⟩]))
    (.jsonBody none) ⟨100, rfl⟩

/-- C8: with the credential configured, an upstream HTTP failure on
`get_series` (non-2xx status, transport error, timeout — anything making
the request block raise) yields the transport-failure text carrying the
underlying message, while a JSON body without the `observations` key
yields the no-data text; the two texts differ for every message and
series id. -/
theorem transport_vs_nodata (apiKey msg sid : String) (args : Args)
    (iUp : InfoUpstream) (h : apiKey ≠ "") :
    call_tool apiKey "get_series" args (.httpFailure msg) iUp =
      .ok [⟨"text", "Error: " ++ msg⟩] ∧
    call_tool apiKey "get_series" args (.jsonBody none) iUp =
      .ok [⟨"text", noDataText (args.series_id.getD .vNone).pyStr⟩] ∧
    "Error: " ++ msg ≠ noDataText sid := by
  refine ⟨?_, ?_, ?_⟩
  · simp [call_tool, h, fredGetSeries]
  · simp [call_tool, h, fredGetSeries]
  · intro heq
    have h1 : ("Error: " ++ msg).data.head? = some 'E' := rfl
    have h2 : (noDataText sid).data.head? = some 'N' := rfl
    rw [heq, h2] at h1
    simp at h1

/-- C8 witness: concrete failure message and series id. -/
theorem transport_vs_nodata_witness :
    call_tool "key" "get_series" {} (.httpFailure "boom") (.jsonBody none) =
      .ok [⟨"text", "Error: boom"⟩] ∧
    call_tool "key" "get_series" {} (.jsonBody none) (.jsonBody none) =
      .ok [⟨"text", noDataText "None"⟩] ∧
    "Error: boom" ≠ noDataText "GDP" :=
  transport_vs_nodata "key" "boom" "GDP" {} (.jsonBody none) (by decide)

end McpFred
